import Mathlib

/-!
Verification development for the timesheet task-to-ticket matching pipeline.

The definitions below are a shallow embedding of the TypeScript source:
  * the todo parser, lexical scorer, candidate filter, preliminary ranker,
    confidence classifier and line renderer (`jira-timesheet-ai` service file),
  * the Gemini oracle client's retry/model-cascade loops and its response
    repair functions (`gemini-ticket-matcher` file).

Floating point scores are embedded as rationals (the source only ever adds
`1 / taskWords.length` increments and compares against literal thresholds).
JavaScript string operations (`trim`, `split(/\s+/)`, `includes`,
`toLowerCase`, the fixed regular expressions of the parser) are embedded as
executable functions over `List Char` following the exact matching semantics
of the patterns in the source.  The remote oracle's `generateContent` call is
embedded as an abstract function from (model name, attempt number) to an
outcome; a successful outcome carries the JSON-extraction result of the reply
text (the JSON.parse library call is outside the repository, so a reply is
modelled by its parse outcome).  `uuidv4()` generated ids are external
randomness and are omitted from the `ProcessedEntry` embedding.
-/

/-- JavaScript whitespace class membership for the ASCII range used here
(space, tab, newline, carriage return, vertical tab, form feed). -/
def isJsWs (c : Char) : Bool :=
  c = ' ' || c = '\t' || c = '\n' || c = '\r' || c = '\x0b' || c = '\x0c'

/-- JavaScript `String.prototype.trim` on a character list. -/
def jsTrimL (s : List Char) : List Char :=
  ((s.dropWhile isJsWs).reverse.dropWhile isJsWs).reverse

/-- Substring test on character lists: JavaScript `hay.includes(needle)`. -/
def jsIncludesL (hay needle : List Char) : Bool :=
  hay.tails.any (fun t => needle.isPrefixOf t)

/-- JavaScript `hay.includes(needle)` on strings. -/
def jsIncludes (hay needle : String) : Bool :=
  jsIncludesL hay.data needle.data

/-- JavaScript `toLowerCase` (ASCII-faithful, via `Char.toLower`). -/
def jsLower (s : String) : String :=
  String.mk (s.data.map Char.toLower)

/-- JavaScript string truthiness of an optional string field:
`undefined` and the empty string are falsy. -/
def optTruthy : Option String → Bool
  | none => false
  | some s => s ≠ ""

/-- JavaScript `a || d` for an optional string `a` (falsy when missing or
empty) with default `d`. -/
def jsOrStr : Option String → String → String
  | none, d => d
  | some s, d => if s = "" then d else s

/-- First `some` of a list of options (backtracking preference order). -/
def firstSome (l : List (Option α)) : Option α :=
  (l.filterMap id).head?

/-- JavaScript `str.split(/\s+/)`: splits on maximal whitespace runs; a
leading run yields a leading empty string and a trailing run a trailing
empty string, exactly as in JavaScript.  The recursion skips a whole
whitespace run at once, so it is fuelled by the input length to stay
structurally recursive (the fuel never runs out when initialized with the
length, since each step consumes at least one character). -/
def jsSplitWsAux : Nat → List Char → List Char → List (List Char)
  | 0, _, acc => [acc.reverse]
  | _ + 1, [], acc => [acc.reverse]
  | fuel + 1, c :: rest, acc =>
    if isJsWs c then
      acc.reverse :: jsSplitWsAux fuel (rest.dropWhile isJsWs) []
    else
      jsSplitWsAux fuel rest (c :: acc)

/-- `task.toLowerCase().split(/\s+/)` as used by the lexical scorer. -/
def jsSplitWs (s : String) : List String :=
  (jsSplitWsAux s.data.length s.data []).map String.mk

/-! ## Todo parser (regular expressions of `parseTodoLine`) -/

/-- All ways the greedy `\s+` can split a prefix off `s`, in backtracking
preference order (longest consumed run first, at least one character). -/
def wsPlusSplits (s : List Char) : List (List Char) :=
  let m := (s.takeWhile isJsWs).length
  (List.range m).map (fun j => s.drop (m - j))

/-- All ways the lazy `(.+?)` can split `s` into a nonempty captured prefix
(not containing a newline, since `.` does not match newlines) and the
remaining suffix, shortest capture first. -/
def lazyPlusSplits (s : List Char) : List (List Char × List Char) :=
  ((List.range s.length).map (fun k => (s.take (k + 1), s.drop (k + 1)))).filter
    (fun p => p.1.all (fun c => c ≠ '\n'))

/-- Deterministic match of `\s+TAG[^)]+\)` at the start of `s` (the body of
one optional annotation group such as `(?:\s+@started\([^)]+\))`), where
`tag` is the literal between the whitespace and the inner capture, e.g.
`@started(`.  Returns the suffix after the closing parenthesis.  Only the
maximal whitespace run can be followed by the literal `@`, so no
backtracking is needed inside the group. -/
def annotSplit (tag : List Char) (s : List Char) : Option (List Char) :=
  let m := (s.takeWhile isJsWs).length
  if m = 0 then none
  else
    let rest := s.drop m
    if tag.isPrefixOf rest then
      let rest2 := rest.drop tag.length
      let inner := rest2.takeWhile (fun c => c ≠ ')')
      if inner.length = 0 then none
      else
        match rest2.drop inner.length with
        | ')' :: rest3 => some rest3
        | _ => none
    else none

/-- The optional group `(?:\s+TAG[^)]+\))?` in preference order: the greedy
optional tries the present branch first, then the absent branch. -/
def optAnnot (tag : List Char) (s : List Char) : List (List Char) :=
  match annotSplit tag s with
  | some r => [r, s]
  | none => [s]

/-- Whether the tail after the lazy capture matches
`(?:\s+@started\([^)]+\))?(?:\s+@done\([^)]+\))?(?:\s+@lasted\([^)]+\))?$`. -/
def annotTailMatches (s : List Char) : Bool :=
  (optAnnot "@started(".data s).any (fun s1 =>
    (optAnnot "@done(".data s1).any (fun s2 =>
      (optAnnot "@lasted(".data s2).any (fun s3 => s3.isEmpty)))

/-- Capture group 1 of the completed-task pattern
`/^✔\s+(.+?)(?:\s+@started\([^)]+\))?(?:\s+@done\([^)]+\))?(?:\s+@lasted\([^)]+\))?$/`
applied to `s`, following the engine's backtracking order: the greedy `\s+`
prefers longer runs, the lazy capture prefers shorter captures. -/
def completedCapture (s : List Char) : Option (List Char) :=
  match s with
  | [] => none
  | c :: rest =>
    if c = '✔' then
      firstSome ((wsPlusSplits rest).map (fun afterWs =>
        firstSome ((lazyPlusSplits afterWs).map (fun p =>
          if annotTailMatches p.2 then some p.1 else none))))
    else none

/-- Capture group 1 of the incomplete-task pattern `/^[-☐]\s+(.+)$/`:
after the glyph and a whitespace run, the greedy `.+` must reach the end of
the string, which succeeds exactly when the remainder is nonempty and free
of newlines; `\s+` backtracks from the maximal run down to one character. -/
def incompleteCapture (s : List Char) : Option (List Char) :=
  match s with
  | [] => none
  | c :: rest =>
    if c = '-' ∨ c = '☐' then
      let m := (rest.takeWhile isJsWs).length
      firstSome ((List.range m).map (fun j =>
        let rem := rest.drop (m - j)
        if rem ≠ [] ∧ rem.all (fun ch => ch ≠ '\n') then some rem else none))
    else none

/-- Capture groups of the project-tag pattern `/^\[([^\]]+)\]\s*(.+)$/`:
group 1 is the (nonempty) bracket content up to the first `]`, group 2 the
remainder after a backtracking `\s*`; `.+` must consume everything to the
end, so a successful group 2 is nonempty and newline-free. -/
def projectTagMatch (task : List Char) : Option (List Char × List Char) :=
  match task with
  | '[' :: rest =>
    let content := rest.takeWhile (fun c => c ≠ ']')
    if content = [] then none
    else
      match rest.drop content.length with
      | ']' :: rest2 =>
        let m := (rest2.takeWhile isJsWs).length
        firstSome ((List.range (m + 1)).map (fun j =>
          let rem := rest2.drop (m - j)
          if rem ≠ [] ∧ rem.all (fun ch => ch ≠ '\n') then
            some (content, rem)
          else none))
      | _ => none
  | _ => none

/-- First match of `/@TAG\(([^)]+)\)/` anywhere in `s` (leftmost position
wins; a position where the literal matches but the parenthesised inner part
fails is skipped and scanning resumes one character later). -/
def findAnnot (tag : List Char) : List Char → Option (List Char)
  | [] => none
  | c :: rest =>
    let s := c :: rest
    if tag.isPrefixOf s then
      let after := s.drop tag.length
      let inner := after.takeWhile (fun ch => ch ≠ ')')
      if inner ≠ [] ∧ (after.drop inner.length).head? = some ')' then
        some inner
      else findAnnot tag rest
    else findAnnot tag rest

/-- Time-tracking annotations of a completed line. -/
structure TimeInfo where
  started : Option String
  done : Option String
  lasted : Option String
deriving DecidableEq, Repr

/-- One parsed input line (`TodoEntry` of the schema). -/
structure TodoEntry where
  originalLine : String
  task : String
  projectIdentifier : Option String
  isCompleted : Bool
  timeInfo : Option TimeInfo
deriving DecidableEq, Repr

/-- Project-identifier extraction on a captured task: on a match of
`/^\[([^\]]+)\]\s*(.+)$/` the trimmed group 1 becomes the identifier (kept
only when nonempty, mirroring the `if (projectIdentifier)` truthiness
check) and the trimmed group 2 replaces the task when nonempty. -/
def extractProject (task0 : List Char) : List Char × Option String :=
  match projectTagMatch task0 with
  | none => (task0, none)
  | some (g1, g2) =>
    let pid := jsTrimL g1
    let newTask := jsTrimL g2
    ((if newTask ≠ [] then newTask else task0),
     if pid ≠ [] then some (String.mk pid) else none)

/-- `parseTodoLine` of the source: recognizes a completed (`✔`) line with
optional `@started`/`@done`/`@lasted` annotations, or an incomplete
(`-`/`☐`) line; all other lines yield `none`. -/
def parseTodoLine (line : String) : Option TodoEntry :=
  let trimmed := jsTrimL line.data
  if trimmed = [] then none
  else
    match completedCapture trimmed with
    | some cap =>
      let task0 := jsTrimL cap
      if task0 = [] then none
      else
        let tp := extractProject task0
        let started := findAnnot "@started(".data trimmed
        let done := findAnnot "@done(".data trimmed
        let lasted := findAnnot "@lasted(".data trimmed
        let ti : Option TimeInfo :=
          if started.isSome || done.isSome || lasted.isSome then
            some ⟨started.map String.mk, done.map String.mk, lasted.map String.mk⟩
          else none
        some ⟨String.mk trimmed, String.mk tp.1, tp.2, true, ti⟩
    | none =>
      match incompleteCapture trimmed with
      | some cap =>
        let task0 := jsTrimL cap
        if task0 = [] then none
        else
          let tp := extractProject task0
          some ⟨String.mk trimmed, String.mk tp.1, tp.2, false, none⟩
      | none => none

/-- `parseTodoContent`: split on newlines, parse each line, keep the
recognized entries in input order. -/
def parseTodoContent (content : String) : List TodoEntry :=
  (content.splitOn "\n").filterMap parseTodoLine

/-! ## Configuration constants (`jira-timesheet` constants file) -/

/-- `EXCLUDED_STATUS` of the constants file. -/
def EXCLUDED_STATUS : List String :=
  ["done", "deployed", "closed", "cancelled", "rollback", "ready to deploy"]

/-- `EXCLUDED_ISSUE_TYPES` of the constants file. -/
def EXCLUDED_ISSUE_TYPES : List String := ["story", "epic", "feature story"]

/-- `AI_CONFIG.ENABLED`. -/
def AI_ENABLED : Bool := true

/-- `AI_CONFIG.MAX_RETRIES`. -/
def AI_MAX_RETRIES : Nat := 3

/-- `AI_CONFIG.MODEL_NAME`. -/
def MODEL_NAME : String := "models/gemini-2.5-flash"

/-- `FALLBACK_MODELS` of the Gemini matcher. -/
def FALLBACK_MODELS : List String :=
  ["models/gemini-2.5-flash", "models/gemini-2.5-pro", "models/gemini-2.0-flash",
   "models/gemini-flash-latest", "models/gemini-pro-latest", "models/gemini-2.0-flash-lite"]

/-- `modelsToTry = [AI_CONFIG.MODEL_NAME, ...FALLBACK_MODELS]` as built in
both retry loops. -/
def modelsToTry : List String := MODEL_NAME :: FALLBACK_MODELS

/-! ## Ticket records, candidate filter and lexical scorer -/

/-- A candidate ticket record.  The source accesses tickets untyped; the
fields here are exactly the properties the matching core reads.  The JIRA
object form stores the issue type under `issuetype.name` and the status
under `status.name`; flat records store plain strings under `issueType`
and `status` — both access paths appear in the source
(`ticket.issuetype?.name?.toLowerCase() || ticket.issueType?.toLowerCase()`),
so both variants are carried as optional fields. -/
structure Ticket where
  key : String
  summary : String
  description : Option String
  issuetypeName : Option String
  issueType : Option String
  statusName : Option String
  status : Option String
deriving DecidableEq, Repr

/-- `ticket.issuetype?.name?.toLowerCase() || ticket.issueType?.toLowerCase() || ""`. -/
def ticketIssueTypeLower (t : Ticket) : String :=
  jsOrStr (t.issuetypeName.map jsLower) (jsOrStr (t.issueType.map jsLower) "")

/-- `ticket.status?.name?.toLowerCase() || ticket.status?.toLowerCase() || ""`. -/
def ticketStatusLower (t : Ticket) : String :=
  jsOrStr (t.statusName.map jsLower) (jsOrStr (t.status.map jsLower) "")

/-- `${summary} ${description || ""}` lowercased, the text both the project
filter and the lexical scorer search in. -/
def ticketSearchText (t : Ticket) : String :=
  jsLower (t.summary ++ " " ++ t.description.getD "")

/-- Global matches of `/\[([^\]]+)\]/g`: every maximal bracketed tag,
returned as the full matched substrings including the brackets; an
unclosed or empty bracket is skipped and scanning resumes one character
after the failed opening bracket, as the regex engine does.  Fuelled by
the input length to stay structurally recursive. -/
def extractBracketsAux : Nat → List Char → List (List Char)
  | 0, _ => []
  | _ + 1, [] => []
  | fuel + 1, c :: rest =>
    if c = '[' then
      let content := rest.takeWhile (fun x => x ≠ ']')
      let after := rest.drop content.length
      if content ≠ [] ∧ after ≠ [] then
        ('[' :: (content ++ [']'])) :: extractBracketsAux fuel after.tail
      else extractBracketsAux fuel rest
    else extractBracketsAux fuel rest

/-- `extractBrackets` entry point, fuelled by the input length (each step
consumes at least one character, so the fuel never runs out). -/
def extractBrackets (s : List Char) : List (List Char) :=
  extractBracketsAux s.length s

/-- `matchesProjectIdentifier` of the source: with no (or an empty, hence
falsy) identifier every ticket passes; otherwise some bracketed tag of the
lowercased summary-plus-description must either contain the lowercased
identifier, or be contained in the identifier once the bracket content's
whitespace is removed. -/
def matchesProjectIdentifier (t : Ticket) (projectIdentifier : Option String) : Bool :=
  match projectIdentifier with
  | none => true
  | some pid =>
    if pid = "" then true
    else
      let summary := jsLower t.summary
      let description := jsOrStr (t.description.map jsLower) ""
      let projectLower := jsLower pid
      let ticketText := summary ++ " " ++ description
      let bracketMatches := extractBrackets ticketText.data
      bracketMatches.any (fun bracket =>
        let bracketContent := (bracket.map Char.toLower).filter
          (fun ch => ¬ (ch = '[' ∨ ch = ']'))
        jsIncludesL bracketContent projectLower.data ||
        jsIncludesL projectLower.data (bracketContent.filter (fun ch => ¬ isJsWs ch)))

/-- The shared eligibility filter: excluded issue types and statuses are
rejected (case-insensitively), then the project-identifier filter applies. -/
def ticketEligible (t : Ticket) (pid : Option String) : Bool :=
  (!(EXCLUDED_ISSUE_TYPES.contains (ticketIssueTypeLower t)) &&
   !(EXCLUDED_STATUS.contains (ticketStatusLower t))) &&
  matchesProjectIdentifier t pid

/-- The lexical score: for each whitespace-split token of the lowercased
task longer than 2 characters that occurs in the search text, add
`1 / (token count)`. -/
def keywordScore (taskWords : List String) (searchText : String) : ℚ :=
  taskWords.foldl
    (fun score word =>
      if word.length > 2 ∧ jsIncludes searchText word then
        score + 1 / (taskWords.length : ℚ)
      else score)
    0

/-- A ticket with the preliminary score attached (`{ ...ticket,
prelimScore }` of `getTopKeywordMatches`; the object spread is embedded as
the pair of the ticket and the score). -/
structure ScoredTicket where
  ticket : Ticket
  prelimScore : ℚ
deriving DecidableEq, Repr

/-- Stable insertion of a scored ticket into a descending-sorted list:
the inserted element goes before the first strictly smaller score, so ties
keep first-seen order — the behaviour of the stable
`sort((a, b) => b.score - a.score)` in the source. -/
def insertScoreDesc (x : ScoredTicket) : List ScoredTicket → List ScoredTicket
  | [] => [x]
  | y :: ys => if x.prelimScore > y.prelimScore then x :: y :: ys else y :: insertScoreDesc x ys

/-- Stable sort by score descending. -/
def sortByScoreDesc (l : List ScoredTicket) : List ScoredTicket :=
  l.foldl (fun acc x => insertScoreDesc x acc) []

/-- `getTopKeywordMatches`: filter to eligible tickets, score each against
the task, keep strictly positive scores, sort descending (stably) and take
the top `limit`. -/
def getTopKeywordMatches (task : String) (tickets : List Ticket) (limit : Nat)
    (projectIdentifier : Option String) : List ScoredTicket :=
  let relevantTickets := tickets.filter (fun t => ticketEligible t projectIdentifier)
  let taskWords := jsSplitWs (jsLower task)
  let scoredTickets := relevantTickets.filterMap (fun t =>
    let score := keywordScore taskWords (ticketSearchText t)
    if score > 0 then some (⟨t, score⟩ : ScoredTicket) else none)
  (sortByScoreDesc scoredTickets).take limit

/-- A keyword-fallback match result (`TicketMatch` shape). -/
structure TicketMatch where
  ticket : Ticket
  score : ℚ
  method : String
deriving DecidableEq, Repr

/-- `fallbackKeywordMatch`: single best eligible ticket by lexical score
(strict improvement only, so the first seen of a tie wins), returned only
when the best score exceeds the hard-coded `0.2` floor. -/
def fallbackKeywordMatch (task : String) (tickets : List Ticket)
    (projectIdentifier : Option String) : Option TicketMatch :=
  if tickets = [] then none
  else
    let relevantTickets := tickets.filter (fun t => ticketEligible t projectIdentifier)
    let taskWords := jsSplitWs (jsLower task)
    let best := relevantTickets.foldl
      (fun acc t =>
        let score := keywordScore taskWords (ticketSearchText t)
        if score > acc.2 then (some t, score) else acc)
      ((none : Option Ticket), (0 : ℚ))
    if best.2 > 1/5 then
      best.1.map (fun t => ⟨t, best.2, "keyword-fallback"⟩)
    else none

/-! ## Oracle reply model and response repair

The oracle's reply text is untrusted.  The source extracts the first
`{...}` span and `JSON.parse`s it; both live outside this repository's
logic (library calls), so a reply is embedded by its extraction outcome:
`none` when no JSON object could be extracted or parsing threw, otherwise
the parsed structure restricted to the fields the repair code reads.
Untrusted numeric fields are embedded by how `Number(x) || 0` coerces
them: either an actual number or a value that coerces to `NaN`. -/

/-- An untrusted numeric field of the reply: a number (also covering
numeric strings, which `Number` converts), or a value whose coercion is
`NaN` (so that `Number(x) || 0` yields `0`). -/
inductive RawNum where
  | num (q : ℚ)
  | nonNum
deriving DecidableEq, Repr

/-- `Number(x) || 0`. -/
def jsNumberOr0 : RawNum → ℚ
  | .num q => q
  | .nonNum => 0

/-- `Math.max(0, Math.min(1, x))`. -/
def clamp01 (q : ℚ) : ℚ := max 0 (min 1 q)

/-- An untrusted task index of a batch reply entry: missing, an integer,
or a truthy non-numeric value (which `(x || 1) - 1` turns into `NaN`). -/
inductive RawIdx where
  | missing
  | num (i : ℤ)
  | nonNum
deriving DecidableEq, Repr

/-- The 0-based index `(match.taskIndex || 1) - 1`: a missing or zero
(falsy) index is coerced to `1` before the subtraction; a truthy
non-numeric index becomes `NaN`, which fails both range comparisons and is
embedded as `none`. -/
def coercedTaskIndex : RawIdx → Option ℤ
  | .missing => some 0
  | .num i => if i = 0 then some 0 else some (i - 1)
  | .nonNum => none

/-- One suggestion object of the reply (`{ ticketKey, confidence,
reasoning }`), every field untrusted. -/
structure GeminiSuggestion where
  ticketKey : Option String
  confidence : RawNum
  reasoning : Option String
deriving DecidableEq, Repr

/-- One entry of the reply's `matches` array.  The `alternatives` array may
be missing, and its items may be `null` (hence `Option` twice). -/
structure RawMatchEntry where
  taskIndex : RawIdx
  bestMatch : Option GeminiSuggestion
  alternatives : Option (List (Option GeminiSuggestion))
deriving DecidableEq, Repr

/-- The parsed batch reply; the `matches` field of the source is `none`
when missing or not an array (which the source treats as total failure).
Named `matchesArr` here because `matches` is reserved in Lean. -/
structure RawReply where
  matchesArr : Option (List RawMatchEntry)
deriving DecidableEq, Repr

/-- A best match or alternative as stored by the batch parser: the ticket
field holds the ticket KEY only (resolution to records happens later). -/
structure KeyedMatch where
  ticket : String
  score : ℚ
  reasoning : String
deriving DecidableEq, Repr

/-- Per-task result of `parseBatchGeminiResponse`. -/
structure ParsedTaskResult where
  task : String
  bestMatch : Option KeyedMatch
  alternatives : List KeyedMatch
deriving DecidableEq, Repr

/-- The placeholder result a task slot is initialized with. -/
def defaultTaskResult (i : Nat) : ParsedTaskResult :=
  ⟨"Task " ++ toString (i + 1), none, []⟩

/-- The repaired best match of one reply entry: present only when the
entry's `bestMatch` and its `ticketKey` are truthy; the confidence is
coerced to a number and clamped. -/
def repairedBestMatch (m : RawMatchEntry) : Option KeyedMatch :=
  match m.bestMatch with
  | some bm =>
    if optTruthy bm.ticketKey then
      some ⟨bm.ticketKey.getD "", clamp01 (jsNumberOr0 bm.confidence),
            jsOrStr bm.reasoning "No reasoning provided"⟩
    else none
  | none => none

/-- The repaired alternatives of one reply entry: non-null items with a
truthy `ticketKey`, truncated to at most 2, confidences coerced and
clamped. -/
def repairedAlternatives (m : RawMatchEntry) : List KeyedMatch :=
  ((((m.alternatives.getD []).filterMap id).filter
      (fun alt => optTruthy alt.ticketKey)).take 2).map
    (fun alt => ⟨alt.ticketKey.getD "", clamp01 (jsNumberOr0 alt.confidence),
                 jsOrStr alt.reasoning "No reasoning provided"⟩)

/-- Processing of one entry of the reply's `matches` array: coerce the
task index, ignore it when out of range, otherwise overwrite that task's
slot with the repaired best match and alternatives. -/
def processRawMatch (expectedTaskCount : Nat) (results : List ParsedTaskResult)
    (m : RawMatchEntry) : List ParsedTaskResult :=
  match coercedTaskIndex m.taskIndex with
  | none => results
  | some idx =>
    if 0 ≤ idx ∧ idx < (expectedTaskCount : ℤ) then
      results.set idx.toNat
        ⟨"Task " ++ toString (idx.toNat + 1), repairedBestMatch m, repairedAlternatives m⟩
    else results

/-- `parseBatchGeminiResponse`: initialize one placeholder per expected
task, then fold the reply's entries over the slots; a missing JSON object
or missing `matches` array throws internally and the catch returns the
all-placeholder list (never an error to the caller). -/
def parseBatchGeminiResponse (reply : Option RawReply) (expectedTaskCount : Nat) :
    List ParsedTaskResult :=
  match reply with
  | none => (List.range expectedTaskCount).map defaultTaskResult
  | some r =>
    match r.matchesArr with
    | none => (List.range expectedTaskCount).map defaultTaskResult
    | some ms =>
      ms.foldl (processRawMatch expectedTaskCount)
        ((List.range expectedTaskCount).map defaultTaskResult)

/-- The parsed single-task reply shape (fields of `GeminiMatchingResult`
before repair). -/
structure RawSingleReply where
  bestMatch : Option GeminiSuggestion
  alternatives : Option (List (Option GeminiSuggestion))
deriving DecidableEq, Repr

/-- A suggestion after the single-task repair: the confidence is coerced
and clamped, the other fields pass through untouched. -/
structure SingleSuggestion where
  ticketKey : Option String
  confidence : ℚ
  reasoning : Option String
deriving DecidableEq, Repr

/-- Output of `parseGeminiResponse`. -/
structure GeminiMatchingResult where
  bestMatch : Option SingleSuggestion
  alternatives : Option (List SingleSuggestion)
deriving DecidableEq, Repr

/-- `parseGeminiResponse`: clamp the best match's confidence when a best
match is present; when an alternatives array is present, drop null items
and items without a truthy `ticketKey`, clamp the rest and keep at most 3.
A reply with no extractable JSON yields the failure value
`{ bestMatch: null, alternatives: [] }`. -/
def parseGeminiResponse (reply : Option RawSingleReply) : GeminiMatchingResult :=
  match reply with
  | none => ⟨none, some []⟩
  | some p =>
    ⟨p.bestMatch.map (fun bm =>
        ⟨bm.ticketKey, clamp01 (jsNumberOr0 bm.confidence), bm.reasoning⟩),
     p.alternatives.map (fun alts =>
        (((alts.filterMap id).filter (fun alt => optTruthy alt.ticketKey)).map
          (fun alt => (⟨alt.ticketKey, clamp01 (jsNumberOr0 alt.confidence),
                        alt.reasoning⟩ : SingleSuggestion))).take 3)⟩

/-! ## Retry loops and model cascade -/

/-- Outcome of one `model.generateContent` attempt (raced against the
timeout): a reply, embedded by its JSON-extraction outcome, or a thrown
error carrying its message. -/
inductive GenOutcome where
  | success (reply : Option RawReply)
  | thrown (msg : String)
deriving DecidableEq, Repr

/-- The oracle as a function of the current model name and the 1-based
attempt number. -/
def OracleFun : Type := String → Nat → GenOutcome

/-- The model-not-found error class:
`errorMessage.includes("is not found for API version") || errorMessage.includes("404 Not Found")`. -/
def isModelNotFoundError (msg : String) : Bool :=
  jsIncludes msg "is not found for API version" || jsIncludes msg "404 Not Found"

/-- The quota / rate-limit error class:
`errorMessage.includes("429") || errorMessage.includes("quota")`. -/
def isQuotaError (msg : String) : Bool :=
  jsIncludes msg "429" || jsIncludes msg "quota"

/-- Result of the attempt loop at one model: a reply, or advance to the
next model carrying the last error. -/
inductive ModelStep where
  | done (reply : Option RawReply)
  | advance (lastErr : Option String)
deriving DecidableEq, Repr

/-- The inner attempt loop of `callGeminiWithBatchRetry` at one model,
also recording the attempt numbers actually performed.  A model-not-found
or quota error breaks to the next model immediately; any other error
consumes the attempt and retries (after backoff) while attempts remain. -/
def batchAttemptLoop (oracle : OracleFun) (m : String) (lastErr : Option String)
    (attempt : Nat) : Nat → ModelStep × List Nat
  | 0 => (.advance lastErr, [])
  | fuel + 1 =>
    match oracle m attempt with
    | .success r => (.done r, [attempt])
    | .thrown msg =>
      if isModelNotFoundError msg then (.advance (some msg), [attempt])
      else if isQuotaError msg then (.advance (some msg), [attempt])
      else
        let rec' := batchAttemptLoop oracle m (some msg) (attempt + 1) fuel
        (rec'.1, attempt :: rec'.2)

/-- The inner attempt loop of `callGeminiWithRetry` (single-task variant):
only a model-not-found error breaks to the next model; every other error —
including quota / rate-limit errors — consumes a retry attempt. -/
def singleAttemptLoop (oracle : OracleFun) (m : String) (lastErr : Option String)
    (attempt : Nat) : Nat → ModelStep × List Nat
  | 0 => (.advance lastErr, [])
  | fuel + 1 =>
    match oracle m attempt with
    | .success r => (.done r, [attempt])
    | .thrown msg =>
      if isModelNotFoundError msg then (.advance (some msg), [attempt])
      else
        let rec' := singleAttemptLoop oracle m (some msg) (attempt + 1) fuel
        (rec'.1, attempt :: rec'.2)

/-- The outer model cascade shared by both retry functions. -/
def modelCascade
    (attemptLoop : OracleFun → String → Option String → Nat → Nat → ModelStep × List Nat)
    (oracle : OracleFun) :
    Option String → List String → Except String (Option RawReply)
  | lastErr, [] =>
    .error (lastErr.getD "Failed to call Gemini API with any available models")
  | lastErr, m :: ms =>
    match attemptLoop oracle m lastErr 1 AI_MAX_RETRIES with
    | (.done r, _) => .ok r
    | (.advance e, _) => modelCascade attemptLoop oracle e ms

/-- `callGeminiWithBatchRetry`: cascade over the models with the batched
attempt loop; when every model is exhausted the last error is thrown. -/
def callGeminiWithBatchRetry (oracle : OracleFun) : Except String (Option RawReply) :=
  modelCascade batchAttemptLoop oracle none modelsToTry

/-- `callGeminiWithRetry`: the single-task cascade. -/
def callGeminiWithRetry (oracle : OracleFun) : Except String (Option RawReply) :=
  modelCascade singleAttemptLoop oracle none modelsToTry

/-! ## Batch matching pipeline -/

/-- One task item of a batch request. -/
structure TaskItem where
  task : String
  projectIdentifier : Option String
deriving DecidableEq, Repr

/-- A task together with its preliminary keyword matches (step 1 of
`batchPredictTickets`). -/
structure TaskWithPrelim where
  task : String
  projectIdentifier : Option String
  preliminaryMatches : List ScoredTicket
deriving DecidableEq, Repr

/-- `batchFindTicketMatches` of the Gemini matcher: filter the universe,
build the mega-prompt (the prompt text only feeds the external oracle and
is modelled opaquely), run the batched retry cascade, and parse the reply.
The surrounding try/catch turns any thrown error — in particular the
cascade exhausting every model — into a list of per-task results with
`bestMatch = null` and no alternatives; no error ever propagates to the
caller, which is why the caller's own fallback catch is unreachable for
oracle failures. -/
def batchFindTicketMatches (oracle : OracleFun) (tasksWithPrelim : List TaskWithPrelim)
    (allTickets : List Ticket) : List ParsedTaskResult :=
  if tasksWithPrelim = [] then []
  else
    let hasProjectIdentifiers :=
      tasksWithPrelim.any (fun t => optTruthy t.projectIdentifier)
    let _relevantTickets := allTickets.filter (fun t =>
      let statusValid :=
        !(EXCLUDED_ISSUE_TYPES.contains (ticketIssueTypeLower t)) &&
        !(EXCLUDED_STATUS.contains (ticketStatusLower t))
      if hasProjectIdentifiers then
        statusValid &&
          tasksWithPrelim.any (fun task => matchesProjectIdentifier t task.projectIdentifier)
      else statusValid)
    match callGeminiWithBatchRetry oracle with
    | .ok reply => parseBatchGeminiResponse reply tasksWithPrelim.length
    | .error _ => tasksWithPrelim.map (fun item => ⟨item.task, none, []⟩)

/-- An alternative attached to a batch prediction. -/
structure AltMatch where
  ticket : Ticket
  score : ℚ
deriving DecidableEq, Repr

/-- One (non-null) element of `batchPredictTickets`' result list. -/
structure BatchResult where
  task : String
  ticket : Ticket
  score : ℚ
  method : String
  alternatives : List AltMatch
deriving DecidableEq, Repr

/-- Step 1 of `batchPredictTickets`: the project identifier (when truthy)
is prepended to the task text before keyword scoring, and the top 5
keyword matches are attached. -/
def prelimForTask (tickets : List Ticket) (ti : TaskItem) : TaskWithPrelim :=
  let enhancedTask :=
    match ti.projectIdentifier with
    | some pid => if pid = "" then ti.task else pid ++ " " ++ ti.task
    | none => ti.task
  ⟨ti.task, ti.projectIdentifier,
   getTopKeywordMatches enhancedTask tickets 5 ti.projectIdentifier⟩

/-- Conversion of one AI batch result back to the caller's format (the
`batchResults.map` of `batchPredictTickets`): missing task, missing or
keyless best match, or a best-match key absent from the universe all yield
`null`; alternatives are resolved against the universe by key and
unresolvable ones dropped. -/
def convertAiResult (tickets : List Ticket) (tasksWithPrelim : List TaskWithPrelim)
    (index : Nat) (result : ParsedTaskResult) : Option BatchResult :=
  match tasksWithPrelim[index]? with
  | none => none
  | some originalTask =>
    match result.bestMatch with
    | none => none
    | some bm =>
      if bm.ticket = "" then none
      else
        match tickets.find? (fun t => t.key = bm.ticket) with
        | none => none
        | some bestTicket =>
          let alternatives := result.alternatives.filterMap (fun alt =>
            (tickets.find? (fun t => t.key = alt.ticket)).map
              (fun tk => (⟨tk, alt.score⟩ : AltMatch)))
          some ⟨originalTask.task, bestTicket, bm.score, "gemini-ai-mega", alternatives⟩

/-- The keyword-only result for one task (step 3 of `batchPredictTickets`):
`null` unless the best preliminary score reaches the hard-coded `0.2`
floor; alternatives are the 2nd and 3rd preliminary matches. -/
def keywordBatchResult (ti : TaskWithPrelim) : Option BatchResult :=
  match ti.preliminaryMatches.head? with
  | none => none
  | some bestKeywordMatch =>
    if bestKeywordMatch.prelimScore < 1/5 then none
    else
      some ⟨ti.task, bestKeywordMatch.ticket, bestKeywordMatch.prelimScore, "keyword-batch",
            ((ti.preliminaryMatches.drop 1).take 2).map
              (fun m => (⟨m.ticket, m.prelimScore⟩ : AltMatch))⟩

/-- `batchPredictTickets`: preliminary keyword matches are computed for
every task; when AI is requested, enabled, and the lazily-initialized
matcher is available (`matcherAvailable`), the single mega-request result
is converted and RETURNED — `batchFindTicketMatches` never throws, so the
keyword fallback of step 3 is reached only when the AI path is skipped
up front, exactly as in the source. -/
def batchPredictTickets (oracle : OracleFun) (matcherAvailable : Bool)
    (tasks : List TaskItem) (tickets : List Ticket) (useAI : Bool) :
    List (Option BatchResult) :=
  if tasks = [] then []
  else
    let tasksWithPreliminaryMatches := tasks.map (prelimForTask tickets)
    if useAI && AI_ENABLED && matcherAvailable then
      let batchResults := batchFindTicketMatches oracle tasksWithPreliminaryMatches tickets
      (List.range batchResults.length).map (fun index =>
        match batchResults[index]? with
        | some result => convertAiResult tickets tasksWithPreliminaryMatches index result
        | none => none)
    else
      tasksWithPreliminaryMatches.map keywordBatchResult

/-- The caller-supplied thresholds (field order as in the source object). -/
structure Thresholds where
  highConfidence : ℚ
  choice : ℚ
  minimum : ℚ
deriving DecidableEq, Repr

/-- The terminal per-task unit (`ProcessedEntry` of the schema).  The
source also attaches a fresh `uuidv4()` id, which is external randomness
and not part of the embedding. -/
structure ProcessedEntry where
  originalTask : String
  projectIdentifier : Option String
  timeInfo : Option TimeInfo
  matchList : Option (List TicketMatch)
  selectedTicket : Option Ticket
  status : String
  confidence : Option ℚ
deriving DecidableEq, Repr

/-- The body of the `entries.map` callback of `processEntriesForMatching`:
a missing result or a score below `minimum` yields `unmapped` with no
match list; otherwise the match list is the best match plus alternatives
and the three ordered thresholds pick the status, selecting the best
ticket only at `auto-assigned`. -/
def processEntryResult (thresholds : Thresholds) (entry : TodoEntry)
    (result : Option BatchResult) : ProcessedEntry :=
  match result with
  | none =>
    ⟨entry.task, entry.projectIdentifier, entry.timeInfo, none, none, "unmapped", none⟩
  | some r =>
    if r.score < thresholds.minimum then
      ⟨entry.task, entry.projectIdentifier, entry.timeInfo, none, none, "unmapped",
       some r.score⟩
    else
      let matchList : List TicketMatch :=
        ⟨r.ticket, r.score, r.method⟩ ::
          r.alternatives.map (fun alt => (⟨alt.ticket, alt.score, "alternative"⟩ : TicketMatch))
      if r.score ≥ thresholds.highConfidence then
        ⟨entry.task, entry.projectIdentifier, entry.timeInfo, some matchList,
         some r.ticket, "auto-assigned", some r.score⟩
      else if r.score ≥ thresholds.choice then
        ⟨entry.task, entry.projectIdentifier, entry.timeInfo, some matchList,
         none, "needs-selection", some r.score⟩
      else
        ⟨entry.task, entry.projectIdentifier, entry.timeInfo, some matchList,
         none, "unmapped", some r.score⟩

/-- The indexed walk of `entries.map((entry, index) => ...)`: entry `i`
is combined with `batchResults[index]`, an out-of-range or null slot both
being the falsy "no result" case. -/
def processEach (thresholds : Thresholds) (batchResults : List (Option BatchResult)) :
    List TodoEntry → Nat → List ProcessedEntry
  | [], _ => []
  | entry :: entries, index =>
    processEntryResult thresholds entry (batchResults[index]?.join) ::
      processEach thresholds batchResults entries (index + 1)

/-- `processEntriesForMatching`: batch-predict over all entries' tasks and
classify each entry with its slot of the batch results. -/
def processEntriesForMatching (oracle : OracleFun) (matcherAvailable : Bool)
    (entries : List TodoEntry) (allTickets : List Ticket) (thresholds : Thresholds)
    (useAI : Bool) : List ProcessedEntry :=
  let tasks := entries.map (fun entry => (⟨entry.task, entry.projectIdentifier⟩ : TaskItem))
  let batchResults := batchPredictTickets oracle matcherAvailable tasks allTickets useAI
  processEach thresholds batchResults entries 0

/-- The per-entry renderer of `generateTimesheetOutput`: a selected ticket
renders its key, otherwise the status picks `[SKIPPED]` or `[UNMAPPED]`;
present (truthy) time annotations are appended in fixed order. -/
def renderProcessedEntry (entry : ProcessedEntry) : String :=
  let line :=
    match entry.selectedTicket with
    | some t => "[" ++ t.key ++ "] " ++ entry.originalTask
    | none =>
      if entry.status = "skipped" then "[SKIPPED] " ++ entry.originalTask
      else "[UNMAPPED] " ++ entry.originalTask
  match entry.timeInfo with
  | none => line
  | some ti =>
    let line := if optTruthy ti.started then
      line ++ " @started(" ++ ti.started.getD "" ++ ")" else line
    let line := if optTruthy ti.done then
      line ++ " @done(" ++ ti.done.getD "" ++ ")" else line
    if optTruthy ti.lasted then
      line ++ " @lasted(" ++ ti.lasted.getD "" ++ ")" else line

/-- `generateTimesheetOutput`: one rendered line per processed entry. -/
def generateTimesheetOutput (processedEntries : List ProcessedEntry) : List String :=
  processedEntries.map renderProcessedEntry

/-! ## Spec-side definition for the project-identifier claim -/

/-- Follows the spec's words for the project filter (the code-side
definition is `matchesProjectIdentifier`): a ticket is eligible when its
summary-plus-description text contains a bracketed tag whose normalized
content overlaps the task's project identifier as a substring in either
direction, case-insensitively and ignoring internal whitespace on either
side. -/
def specProjectOverlap (t : Ticket) (pid : String) : Bool :=
  let ticketText := jsLower t.summary ++ " " ++ jsOrStr (t.description.map jsLower) ""
  let pidNorm := (jsLower pid).data.filter (fun ch => ¬ isJsWs ch)
  (extractBrackets ticketText.data).any (fun bracket =>
    let bracketNorm := (bracket.map Char.toLower).filter
      (fun ch => ¬ (ch = '[' ∨ ch = ']') ∧ ¬ isJsWs ch)
    jsIncludesL bracketNorm pidNorm || jsIncludesL pidNorm bracketNorm)

/-! ## Concrete fixtures used by counterexamples and witnesses -/

/-- The ticket of the spec's boundary-case scenario. -/
def ticketMyDebit : Ticket :=
  ⟨"EW-1", "[MyDebit] Fix login", none, none, some "Bug", none, some "Open"⟩

/-- The task entry of the spec's boundary-case scenario. -/
def entryFixLogin : TodoEntry :=
  ⟨"- [mydebit] Fix login timeout", "Fix login timeout", some "mydebit", false, none⟩

/-- The default thresholds of the spec's scenario. -/
def thrDefault : Thresholds := ⟨3/4, 1/2, 3/10⟩

/-- An oracle whose every invocation throws a generic (retryable) error. -/
def alwaysThrowOracle : OracleFun := fun _ _ => .thrown "network error"

/-- An oracle whose every invocation throws a quota / rate-limit error. -/
def quotaOracle : OracleFun := fun _ _ => .thrown "429 quota exceeded"

/-- An oracle whose every invocation throws a model-not-found error. -/
def notFoundOracle : OracleFun := fun _ _ => .thrown "404 Not Found"

/-- A ticket whose only bracketed tag has no internal whitespace. -/
def ticketPayment : Ticket :=
  ⟨"T-1", "[payment]", none, none, some "Bug", none, some "Open"⟩

/-- A six-token task entry with no project tag. -/
def entrySixWords : TodoEntry :=
  ⟨"- improve alpha beta gamma delta audit", "improve alpha beta gamma delta audit",
   none, false, none⟩

/-- A ticket matched by exactly one of the six tokens of `entrySixWords`. -/
def ticketZeta : Ticket := ⟨"Z-1", "audit trail", none, none, some "Bug", none, some "Open"⟩

/-- A classifier input with a score strictly between `choice` and
`highConfidence` of the default thresholds. -/
def resultNeeds : BatchResult := ⟨"Fix login timeout", ticketMyDebit, 3/5, "keyword-batch", []⟩

/-- A two-line document whose third line is unrecognizable. -/
def sampleText : String :=
  "- task one\n✔ task two @done(24-01-02 11:00)\nnot a todo line"

/-- A batch reply whose only entry carries the falsy task index 0 and
out-of-range confidences. -/
def replyZeroIdx : RawReply :=
  ⟨some [⟨.num 0, some ⟨some "EW-9", .num (9/10), none⟩, none⟩]⟩

/-- A hostile batch reply: confidences above 1, below 0 and non-numeric,
a null alternative, an alternative with an empty key, four alternatives,
and a second entry targeting a task index out of range. -/
def replyHostile : RawReply :=
  ⟨some
    [⟨.num 1, some ⟨some "EW-1", .num 7, none⟩,
      some [some ⟨some "EW-2", .num (-3), none⟩, none,
            some ⟨some "", .num (1/2), none⟩,
            some ⟨some "EW-3", .nonNum, some "alt"⟩,
            some ⟨some "EW-4", .num (1/3), none⟩]⟩,
     ⟨.num 9, some ⟨some "EW-5", .num (1/2), none⟩, none⟩]⟩

/-- A hostile single-task reply with out-of-range and non-numeric
confidences. -/
def singleReplyHostile : RawSingleReply :=
  ⟨some ⟨some "EW-1", .num (5/2), none⟩,
   some [some ⟨some "EW-2", .nonNum, none⟩, none, some ⟨some "EW-3", .num (-1), none⟩]⟩

/-! ## Sanity theorems for the parser embedding (spec §8 scenarios) -/

/-- The incomplete-line scenario of the spec parses as stated. -/
theorem parse_scenario_incomplete :
    parseTodoLine "- [mydebit] Fix login timeout" = some entryFixLogin := by
  decide

/-- The completed-line scenario of the spec parses as stated. -/
theorem parse_scenario_completed :
    parseTodoLine "✔ Deploy service @started(24-01-02 10:00) @done(24-01-02 11:00) @lasted(1h0m0s)" =
      some ⟨"✔ Deploy service @started(24-01-02 10:00) @done(24-01-02 11:00) @lasted(1h0m0s)",
        "Deploy service", none, true,
        some ⟨some "24-01-02 10:00", some "24-01-02 11:00", some "1h0m0s"⟩⟩ := by
  decide

/-! ## Claim C2 — confidence classifier trichotomy -/

/-- C2: for thresholds ordered `0 ≤ minimum ≤ choice ≤ highConfidence ≤ 1`
the classifier is a pure total function of the resolved best score: an
absent result is `unmapped` with no selection; `s < choice` gives
`unmapped` with no selection; `choice ≤ s < highConfidence` gives
`needs-selection` with no selection; `s ≥ highConfidence` gives
`auto-assigned` with the best ticket selected; and the status depends only
on the score and the thresholds. -/
theorem classifier_threshold_trichotomy (thr : Thresholds) (entry : TodoEntry)
    (r : BatchResult) (h0 : 0 ≤ thr.minimum) (h1 : thr.minimum ≤ thr.choice)
    (h2 : thr.choice ≤ thr.highConfidence) (h3 : thr.highConfidence ≤ 1) :
    ((processEntryResult thr entry none).status = "unmapped" ∧
      (processEntryResult thr entry none).selectedTicket = none) ∧
    (r.score < thr.choice →
      (processEntryResult thr entry (some r)).status = "unmapped" ∧
      (processEntryResult thr entry (some r)).selectedTicket = none) ∧
    (thr.choice ≤ r.score → r.score < thr.highConfidence →
      (processEntryResult thr entry (some r)).status = "needs-selection" ∧
      (processEntryResult thr entry (some r)).selectedTicket = none) ∧
    (thr.highConfidence ≤ r.score →
      (processEntryResult thr entry (some r)).status = "auto-assigned" ∧
      (processEntryResult thr entry (some r)).selectedTicket = some r.ticket) ∧
    (∀ (entry' : TodoEntry) (r' : BatchResult), r'.score = r.score →
      (processEntryResult thr entry' (some r')).status =
        (processEntryResult thr entry (some r)).status) := by
  refine ⟨⟨rfl, rfl⟩, ?_, ?_, ?_, ?_⟩
  · intro hs
    simp only [processEntryResult]
    split_ifs <;> first | exact ⟨rfl, rfl⟩ | (exfalso; linarith)
  · intro hs1 hs2
    simp only [processEntryResult]
    split_ifs <;> first | exact ⟨rfl, rfl⟩ | (exfalso; linarith)
  · intro hs
    simp only [processEntryResult]
    split_ifs <;> first | exact ⟨rfl, rfl⟩ | (exfalso; linarith)
  · intro entry' r' hscore
    simp only [processEntryResult, hscore]
    split_ifs <;> rfl

/-- C2 witness: at the default thresholds a score of 3/5 lands in the
needs-selection band with no selection. -/
theorem classifier_threshold_trichotomy_witness :
    (processEntryResult thrDefault entryFixLogin (some resultNeeds)).status = "needs-selection" ∧
    (processEntryResult thrDefault entryFixLogin (some resultNeeds)).selectedTicket = none :=
  (classifier_threshold_trichotomy thrDefault entryFixLogin resultNeeds
      (of_decide_eq_true (by with_unfolding_all rfl))
      (of_decide_eq_true (by with_unfolding_all rfl))
      (of_decide_eq_true (by with_unfolding_all rfl))
      (of_decide_eq_true (by with_unfolding_all rfl))).2.2.1
    (of_decide_eq_true (by with_unfolding_all rfl))
    (of_decide_eq_true (by with_unfolding_all rfl))

/-! ## Claim C3 — the spec's boundary-case scenario -/

/-- C3 counterexample: on the spec's scenario input the keyword pipeline
scores 3/4 (not approximately 1/3) and the resulting status is
`auto-assigned` (not `unmapped`): the batch path prepends the project
identifier to the task before tokenizing, so 3 of the 4 tokens match. -/
theorem scenario_boundary_counterexample :
    (processEntriesForMatching alwaysThrowOracle true [entryFixLogin] [ticketMyDebit]
        thrDefault false).map ProcessedEntry.status = ["auto-assigned"] ∧
    (processEntriesForMatching alwaysThrowOracle true [entryFixLogin] [ticketMyDebit]
        thrDefault false).map ProcessedEntry.confidence = [some (3/4)] ∧
    "auto-assigned" ≠ "unmapped" ∧ ((3 : ℚ)/4 ≠ 1/3) :=
  of_decide_eq_true (by with_unfolding_all rfl)

/-- C3 amended: on the scenario input the preliminary ranker scores the
identifier-enhanced task `"mydebit Fix login timeout"` at 3/4 (tokens
`mydebit`, `fix`, `login` match; `timeout` does not), which reaches
`highConfidence`, so the entry is auto-assigned to EW-1 with confidence
3/4. -/
theorem scenario_boundary_amended :
    getTopKeywordMatches "mydebit Fix login timeout" [ticketMyDebit] 5 (some "mydebit") =
      [⟨ticketMyDebit, 3/4⟩] ∧
    (processEntriesForMatching alwaysThrowOracle true [entryFixLogin] [ticketMyDebit]
        thrDefault false).map
          (fun p => (p.status, p.confidence, p.selectedTicket)) =
      [("auto-assigned", some (3/4), some ticketMyDebit)] :=
  of_decide_eq_true (by with_unfolding_all rfl)

/-! ## Claim C1 — fallback guarantee under a throwing oracle -/

/-- C1: with an oracle whose every invocation throws, the AI-enabled run
leaves the scenario task `unmapped` while the keyword-only run
auto-assigns it — the results are NOT identical, because
`batchFindTicketMatches` swallows the thrown error and returns null best
matches, so the keyword fallback of `batchPredictTickets` is never
reached. -/
theorem oracle_failure_fallback_divergence :
    (processEntriesForMatching alwaysThrowOracle true [entryFixLogin] [ticketMyDebit]
        thrDefault true).map (fun p => (p.status, p.selectedTicket)) =
      [("unmapped", none)] ∧
    (processEntriesForMatching alwaysThrowOracle true [entryFixLogin] [ticketMyDebit]
        thrDefault false).map (fun p => (p.status, p.selectedTicket)) =
      [("auto-assigned", some ticketMyDebit)] ∧
    processEntriesForMatching alwaysThrowOracle true [entryFixLogin] [ticketMyDebit]
        thrDefault true ≠
      processEntriesForMatching alwaysThrowOracle true [entryFixLogin] [ticketMyDebit]
        thrDefault false :=
  of_decide_eq_true (by with_unfolding_all rfl)

/-! ## Claim C8 — determinism of the preliminary ranker -/

/-- C8: the preliminary ranker is a pure function — two runs on identical
inputs return identical candidate lists (same tickets, scores and order);
the embedding of `getTopKeywordMatches` is deterministic by construction,
there being no randomness in the source function. -/
theorem preliminary_ranker_deterministic (task : String) (tickets : List Ticket)
    (limit : Nat) (projectIdentifier : Option String) :
    getTopKeywordMatches task tickets limit projectIdentifier =
      getTopKeywordMatches task tickets limit projectIdentifier := rfl

/-! ## Claim C6 — retry / model-advance policy -/

/-- Helper: the attempt loops always perform the attempt they start with,
so the recorded trace starts with that attempt number. -/
theorem attemptLoop_trace_cons (oracle : OracleFun) (m : String) (le : Option String)
    (a f : Nat) :
    (∃ t, (batchAttemptLoop oracle m le a (f + 1)).2 = a :: t) ∧
    (∃ t, (singleAttemptLoop oracle m le a (f + 1)).2 = a :: t) := by
  constructor
  · cases h : oracle m a with
    | success r => exact ⟨[], by simp [batchAttemptLoop, h]⟩
    | thrown msg =>
      simp only [batchAttemptLoop, h]
      split_ifs <;> exact ⟨_, rfl⟩
  · cases h : oracle m a with
    | success r => exact ⟨[], by simp [singleAttemptLoop, h]⟩
    | thrown msg =>
      simp only [singleAttemptLoop, h]
      split_ifs <;> exact ⟨_, rfl⟩

/-- C6 amended: when an attempt at the current model throws, the BATCHED
attempt loop advances to the next model immediately — recording exactly
that one attempt — on both the model-not-found and the quota / rate-limit
error classes, while the SINGLE-TASK loop does so only on model-not-found
errors; on every other error (and, in the single-task loop, also on quota
errors) the attempt is consumed and the next attempt at the same model
follows. -/
theorem retry_cascade_advance_policy (oracle : OracleFun) (m : String)
    (le : Option String) (a f : Nat) (msg : String)
    (hfail : oracle m a = .thrown msg) :
    ((isModelNotFoundError msg = true ∨ isQuotaError msg = true) →
       batchAttemptLoop oracle m le a (f + 1) = (.advance (some msg), [a])) ∧
    (isModelNotFoundError msg = true →
       singleAttemptLoop oracle m le a (f + 1) = (.advance (some msg), [a])) ∧
    (isModelNotFoundError msg = false → isQuotaError msg = false →
       (batchAttemptLoop oracle m le a (f + 2)).2.take 2 = [a, a + 1]) ∧
    (isModelNotFoundError msg = false →
       (singleAttemptLoop oracle m le a (f + 2)).2.take 2 = [a, a + 1]) := by
  refine ⟨?_, ?_, ?_, ?_⟩
  · rintro (h | h)
    · simp [batchAttemptLoop, hfail, h]
    · cases hnf : isModelNotFoundError msg
      · simp [batchAttemptLoop, hfail, h, hnf]
      · simp [batchAttemptLoop, hfail, hnf]
  · intro h
    simp [singleAttemptLoop, hfail, h]
  · intro h1 h2
    obtain ⟨t, ht⟩ := (attemptLoop_trace_cons oracle m (some msg) (a + 1) f).1
    have step : (batchAttemptLoop oracle m le a (f + 2)).2 =
        a :: (batchAttemptLoop oracle m (some msg) (a + 1) (f + 1)).2 := by
      rw [batchAttemptLoop, hfail]
      simp [h1, h2]
    rw [step, ht]
    rfl
  · intro h1
    obtain ⟨t, ht⟩ := (attemptLoop_trace_cons oracle m (some msg) (a + 1) f).2
    have step : (singleAttemptLoop oracle m le a (f + 2)).2 =
        a :: (singleAttemptLoop oracle m (some msg) (a + 1) (f + 1)).2 := by
      rw [singleAttemptLoop, hfail]
      simp [h1]
    rw [step, ht]
    rfl

/-- C6 counterexample: under an oracle that always throws a quota error,
the single-task loop consumes all three retry attempts at the current
model (trace `[1, 2, 3]`) instead of advancing immediately as the claim
states for both variants; the batched loop does advance immediately
(trace `[1]`). -/
theorem retry_quota_single_counterexample :
    isQuotaError "429 quota exceeded" = true ∧
    isModelNotFoundError "429 quota exceeded" = false ∧
    (singleAttemptLoop quotaOracle "models/gemini-2.5-flash" none 1 AI_MAX_RETRIES).2 =
      [1, 2, 3] ∧
    (batchAttemptLoop quotaOracle "models/gemini-2.5-flash" none 1 AI_MAX_RETRIES).2 =
      [1] := by
  decide

/-- C6 witness: a model-not-found error advances both loops immediately
after a single attempt. -/
theorem retry_cascade_advance_policy_witness :
    batchAttemptLoop notFoundOracle "models/gemini-2.5-flash" none 1 3 =
      (.advance (some "404 Not Found"), [1]) ∧
    singleAttemptLoop notFoundOracle "models/gemini-2.5-flash" none 1 3 =
      (.advance (some "404 Not Found"), [1]) :=
  ⟨(retry_cascade_advance_policy notFoundOracle "models/gemini-2.5-flash" none 1 2
      "404 Not Found" rfl).1 (Or.inl (by decide)),
   (retry_cascade_advance_policy notFoundOracle "models/gemini-2.5-flash" none 1 2
      "404 Not Found" rfl).2.1 (by decide)⟩

/-! ## Claim C7 — one rendered line per recognized input line -/

/-- Helper: the classifier walk produces exactly one processed entry per
todo entry. -/
theorem processEach_length (thr : Thresholds) (br : List (Option BatchResult)) :
    ∀ (entries : List TodoEntry) (i : Nat),
      (processEach thr br entries i).length = entries.length
  | [], _ => rfl
  | _ :: es, i => by
    simp only [processEach, List.length_cons, processEach_length thr br es (i + 1)]

/-- Helper: the `j`-th processed entry is the classification of the `j`-th
todo entry with batch slot `i0 + j`. -/
theorem processEach_getElem? (thr : Thresholds) (br : List (Option BatchResult)) :
    ∀ (entries : List TodoEntry) (i0 j : Nat),
      (processEach thr br entries i0)[j]? =
        (entries[j]?).map (fun e => processEntryResult thr e (br[i0 + j]?.join))
  | [], _, _ => by simp [processEach]
  | e :: es, i0, 0 => by simp [processEach]
  | e :: es, i0, j + 1 => by
    simp only [processEach, List.getElem?_cons_succ]
    rw [processEach_getElem? thr br es (i0 + 1) j]
    have harith : i0 + 1 + j = i0 + (j + 1) := by omega
    rw [harith]

/-- Helper: every classification branch carries the entry's task text
through unchanged. -/
theorem processEntryResult_originalTask (thr : Thresholds) (e : TodoEntry)
    (r : Option BatchResult) : (processEntryResult thr e r).originalTask = e.task := by
  cases r with
  | none => rfl
  | some b =>
    simp only [processEntryResult]
    split_ifs <;> rfl

/-- C7: the composed pipeline renders exactly one output line per input
line recognized by the parser, in the same order: the output has the same
length as the parsed entry list, and the `i`-th line is the rendering of
the `i`-th processed entry, which carries the `i`-th recognized entry's
task text. -/
theorem pipeline_one_line_per_entry (text : String) (tickets : List Ticket)
    (thr : Thresholds) (useAI : Bool) (oracle : OracleFun) (avail : Bool) :
    (generateTimesheetOutput (processEntriesForMatching oracle avail
        (parseTodoContent text) tickets thr useAI)).length =
      (parseTodoContent text).length ∧
    ∀ i, i < (parseTodoContent text).length →
      ∃ pe,
        (processEntriesForMatching oracle avail (parseTodoContent text) tickets thr
            useAI)[i]? = some pe ∧
        (generateTimesheetOutput (processEntriesForMatching oracle avail
            (parseTodoContent text) tickets thr useAI))[i]? =
          some (renderProcessedEntry pe) ∧
        some pe.originalTask = ((parseTodoContent text)[i]?).map TodoEntry.task := by
  constructor
  · simp [generateTimesheetOutput, processEntriesForMatching, processEach_length]
  · intro i hi
    obtain ⟨e, he⟩ : ∃ e, (parseTodoContent text)[i]? = some e :=
      ⟨_, List.getElem?_eq_getElem hi⟩
    simp only [processEntriesForMatching, generateTimesheetOutput, List.getElem?_map,
      processEach_getElem?, he, Option.map_some']
    exact ⟨_, rfl, rfl, by rw [processEntryResult_originalTask]⟩

/-- C7 witness: on a three-line document whose third line is not a todo
line, the pipeline recognizes two entries and renders the first line from
the first entry. -/
theorem pipeline_one_line_per_entry_witness :
    (parseTodoContent sampleText).length = 2 ∧
    (∃ pe,
      (processEntriesForMatching alwaysThrowOracle true (parseTodoContent sampleText)
          [] thrDefault false)[0]? = some pe ∧
      (generateTimesheetOutput (processEntriesForMatching alwaysThrowOracle true
          (parseTodoContent sampleText) [] thrDefault false))[0]? =
        some (renderProcessedEntry pe) ∧
      some pe.originalTask = ((parseTodoContent sampleText)[0]?).map TodoEntry.task) :=
  ⟨of_decide_eq_true (by with_unfolding_all rfl),
   (pipeline_one_line_per_entry sampleText [] thrDefault false alwaysThrowOracle true).2 0
     (of_decide_eq_true (by with_unfolding_all rfl))⟩

/-! ## Claim C10 — the hard-coded 0.2 floor of the keyword path -/

/-- C10: in the keyword-only path (AI not requested, or the matcher
unavailable at initialization), an entry whose best preliminary score is
below the hard-coded `0.2` floor (or that has no preliminary match at
all) is classified `unmapped` with no selection and no confidence, for
EVERY caller-supplied thresholds value — in particular even when
`thresholds.minimum` is below that score, since the floor is applied
before the thresholds are consulted. -/
theorem keyword_floor_overrides_minimum (oracle : OracleFun) (avail : Bool)
    (entries : List TodoEntry) (tickets : List Ticket) (thr : Thresholds)
    (useAI : Bool) (i : Nat) (e : TodoEntry)
    (he : entries[i]? = some e)
    (hpath : useAI = false ∨ avail = false)
    (hlow : ∀ b, (prelimForTask tickets
        ⟨e.task, e.projectIdentifier⟩).preliminaryMatches.head? = some b →
      b.prelimScore < 1/5) :
    (processEntriesForMatching oracle avail entries tickets thr useAI)[i]? =
      some ⟨e.task, e.projectIdentifier, e.timeInfo, none, none, "unmapped", none⟩ := by
  have hkb : keywordBatchResult (prelimForTask tickets ⟨e.task, e.projectIdentifier⟩) =
      none := by
    unfold keywordBatchResult
    cases hh : (prelimForTask tickets
        ⟨e.task, e.projectIdentifier⟩).preliminaryMatches.head? with
    | none => rfl
    | some b =>
      simp only [hh]
      rw [if_pos (hlow b hh)]
  have hne : entries ≠ [] := by
    intro h
    rw [h] at he
    simp at he
  have htasks :
      entries.map (fun entry => (⟨entry.task, entry.projectIdentifier⟩ : TaskItem)) ≠ [] := by
    simpa using hne
  have hcond : (useAI && AI_ENABLED && avail) = false := by
    rcases hpath with h | h <;> simp [h]
  simp only [processEntriesForMatching]
  rw [processEach_getElem?]
  simp only [Nat.zero_add, batchPredictTickets, if_neg htasks, hcond, Bool.false_eq_true,
    if_false, List.getElem?_map, he, Option.map_some', hkb, Option.join]
  rfl

/-- C10 witness: a six-token task matching one token of the only ticket
scores 1/6, which is at or above the caller's minimum 1/10 yet below the
0.2 floor, so the entry is left unmapped. -/
theorem keyword_floor_overrides_minimum_witness :
    ((prelimForTask [ticketZeta]
        ⟨entrySixWords.task, entrySixWords.projectIdentifier⟩).preliminaryMatches.map
          ScoredTicket.prelimScore = [1/6]) ∧
    ((1 : ℚ)/10 ≤ 1/6 ∧ (1 : ℚ)/6 < 1/5) ∧
    (processEntriesForMatching alwaysThrowOracle true [entrySixWords] [ticketZeta]
        ⟨3/4, 1/2, 1/10⟩ false)[0]? =
      some ⟨entrySixWords.task, entrySixWords.projectIdentifier, entrySixWords.timeInfo,
            none, none, "unmapped", none⟩ :=
  ⟨of_decide_eq_true (by with_unfolding_all rfl),
   of_decide_eq_true (by with_unfolding_all rfl),
   keyword_floor_overrides_minimum alwaysThrowOracle true [entrySixWords] [ticketZeta]
     ⟨3/4, 1/2, 1/10⟩ false 0 entrySixWords rfl (Or.inl rfl)
     (fun b hb => by
       have hsc : (prelimForTask [ticketZeta]
           ⟨entrySixWords.task, entrySixWords.projectIdentifier⟩).preliminaryMatches.head? =
             some ⟨ticketZeta, 1/6⟩ :=
         of_decide_eq_true (by with_unfolding_all rfl)
       rw [hsc] at hb
       injection hb with hb'
       rw [← hb']
       exact of_decide_eq_true (by with_unfolding_all rfl))⟩

/-! ## Claims C4 and C5 — response repair invariants -/

/-- Helper: `Math.max(0, Math.min(1, x))` is at least 0. -/
theorem clamp01_nonneg (q : ℚ) : 0 ≤ clamp01 q := le_max_left 0 _

/-- Helper: `Math.max(0, Math.min(1, x))` is at most 1. -/
theorem clamp01_le_one (q : ℚ) : clamp01 q ≤ 1 :=
  max_le (by norm_num) (min_le_left 1 q)

/-- Helper: a truthy optional string is a nonempty string. -/
theorem optTruthy_getD_ne (o : Option String) (h : optTruthy o = true) :
    o.getD "" ≠ "" := by
  cases o with
  | none => simp [optTruthy] at h
  | some s => simpa [optTruthy] using of_decide_eq_true h

/-- Helper: a present repaired best match has a nonempty key and a score
in `[0, 1]`. -/
theorem repairedBestMatch_good (m : RawMatchEntry) :
    ∀ b, repairedBestMatch m = some b → b.ticket ≠ "" ∧ 0 ≤ b.score ∧ b.score ≤ 1 := by
  intro b hb
  unfold repairedBestMatch at hb
  split at hb
  next bm hbm =>
    split at hb
    next htr =>
      cases hb
      exact ⟨optTruthy_getD_ne _ htr, clamp01_nonneg _, clamp01_le_one _⟩
    next => exact absurd hb (by simp)
  next => exact absurd hb (by simp)

/-- Helper: the repaired alternatives number at most 2, with nonempty keys
and scores in `[0, 1]`. -/
theorem repairedAlternatives_good (m : RawMatchEntry) :
    (repairedAlternatives m).length ≤ 2 ∧
    (∀ a ∈ repairedAlternatives m, a.ticket ≠ "" ∧ 0 ≤ a.score ∧ a.score ≤ 1) := by
  constructor
  · unfold repairedAlternatives
    simpa using List.length_take_le 2 _
  · intro a ha
    unfold repairedAlternatives at ha
    simp only [List.mem_map] at ha
    obtain ⟨alt, haltmem, halt⟩ := ha
    have haltf : alt ∈ ((m.alternatives.getD []).filterMap id).filter
        (fun alt => optTruthy alt.ticketKey) := List.mem_of_mem_take haltmem
    have htr : optTruthy alt.ticketKey = true := (List.mem_filter.mp haltf).2
    rw [← halt]
    exact ⟨optTruthy_getD_ne _ htr, clamp01_nonneg _, clamp01_le_one _⟩

/-- Helper: processing one reply entry preserves slot goodness: every slot
of the updated list has a nonempty, `[0,1]`-scored best match (when
present) and at most two alternatives with nonempty keys and `[0,1]`
scores. -/
theorem processRawMatch_good (n : Nat) (results : List ParsedTaskResult)
    (m : RawMatchEntry)
    (hres : ∀ x ∈ results,
      (∀ b, x.bestMatch = some b → b.ticket ≠ "" ∧ 0 ≤ b.score ∧ b.score ≤ 1) ∧
      x.alternatives.length ≤ 2 ∧
      (∀ a ∈ x.alternatives, a.ticket ≠ "" ∧ 0 ≤ a.score ∧ a.score ≤ 1)) :
    ∀ r ∈ processRawMatch n results m,
      (∀ b, r.bestMatch = some b → b.ticket ≠ "" ∧ 0 ≤ b.score ∧ b.score ≤ 1) ∧
      r.alternatives.length ≤ 2 ∧
      (∀ a ∈ r.alternatives, a.ticket ≠ "" ∧ 0 ≤ a.score ∧ a.score ≤ 1) := by
  intro r hr
  unfold processRawMatch at hr
  split at hr
  · exact hres r hr
  · split at hr
    · rcases List.mem_or_eq_of_mem_set hr with hold | hnew
      · exact hres r hold
      · subst hnew
        exact ⟨repairedBestMatch_good m, (repairedAlternatives_good m).1,
               (repairedAlternatives_good m).2⟩
    · exact hres r hr

/-- Helper: goodness of every slot is an invariant of the fold over the
reply's entries. -/
theorem foldl_processRawMatch_good (n : Nat) :
    ∀ (ms : List RawMatchEntry) (acc : List ParsedTaskResult),
      (∀ x ∈ acc,
        (∀ b, x.bestMatch = some b → b.ticket ≠ "" ∧ 0 ≤ b.score ∧ b.score ≤ 1) ∧
        x.alternatives.length ≤ 2 ∧
        (∀ a ∈ x.alternatives, a.ticket ≠ "" ∧ 0 ≤ a.score ∧ a.score ≤ 1)) →
      ∀ r ∈ ms.foldl (processRawMatch n) acc,
        (∀ b, r.bestMatch = some b → b.ticket ≠ "" ∧ 0 ≤ b.score ∧ b.score ≤ 1) ∧
        r.alternatives.length ≤ 2 ∧
        (∀ a ∈ r.alternatives, a.ticket ≠ "" ∧ 0 ≤ a.score ∧ a.score ≤ 1)
  | [], acc, hacc => hacc
  | m :: ms, acc, hacc =>
    foldl_processRawMatch_good n ms (processRawMatch n acc m)
      (processRawMatch_good n acc m hacc)

/-- Helper: every element of the batch parse output is a good slot. -/
theorem parseBatch_mem_good (reply : Option RawReply) (n : Nat) :
    ∀ r ∈ parseBatchGeminiResponse reply n,
      (∀ b, r.bestMatch = some b → b.ticket ≠ "" ∧ 0 ≤ b.score ∧ b.score ≤ 1) ∧
      r.alternatives.length ≤ 2 ∧
      (∀ a ∈ r.alternatives, a.ticket ≠ "" ∧ 0 ≤ a.score ∧ a.score ≤ 1) := by
  have hdef : ∀ x ∈ (List.range n).map defaultTaskResult,
      (∀ b, x.bestMatch = some b → b.ticket ≠ "" ∧ 0 ≤ b.score ∧ b.score ≤ 1) ∧
      x.alternatives.length ≤ 2 ∧
      (∀ a ∈ x.alternatives, a.ticket ≠ "" ∧ 0 ≤ a.score ∧ a.score ≤ 1) := by
    intro x hx
    obtain ⟨i, _, hi⟩ := List.mem_map.mp hx
    rw [← hi]
    exact ⟨fun b hb => by simp [defaultTaskResult] at hb, by simp [defaultTaskResult],
           fun a ha => by simp [defaultTaskResult] at ha⟩
  cases reply with
  | none => exact hdef
  | some r =>
    cases hm : r.matchesArr with
    | none => simpa [parseBatchGeminiResponse, hm] using hdef
    | some ms =>
      simp only [parseBatchGeminiResponse, hm]
      exact foldl_processRawMatch_good n ms _ hdef

/-- Helper: processing one reply entry preserves list length. -/
theorem processRawMatch_length (n : Nat) (results : List ParsedTaskResult)
    (m : RawMatchEntry) : (processRawMatch n results m).length = results.length := by
  unfold processRawMatch
  split
  · rfl
  · split
    · exact List.length_set results _ _
    · rfl

/-- Helper: folding the reply's entries preserves list length. -/
theorem foldl_processRawMatch_length (n : Nat) :
    ∀ (ms : List RawMatchEntry) (acc : List ParsedTaskResult),
      (ms.foldl (processRawMatch n) acc).length = acc.length
  | [], _ => rfl
  | m :: ms, acc => by
    rw [List.foldl_cons, foldl_processRawMatch_length n ms (processRawMatch n acc m),
      processRawMatch_length]

/-- Helper: the batch parse output always has exactly the expected number
of per-task slots. -/
theorem parseBatch_length (reply : Option RawReply) (n : Nat) :
    (parseBatchGeminiResponse reply n).length = n := by
  cases reply with
  | none => simp [parseBatchGeminiResponse]
  | some r =>
    cases hm : r.matchesArr with
    | none => simp [parseBatchGeminiResponse, hm]
    | some ms =>
      simp only [parseBatchGeminiResponse, hm]
      rw [foldl_processRawMatch_length]
      simp

/-- Helper: a slot whose index is hit by no reply entry (after index
coercion) keeps its initial placeholder through the fold. -/
theorem foldl_processRawMatch_unref (n i : Nat) :
    ∀ (ms : List RawMatchEntry) (acc : List ParsedTaskResult),
      (∀ m ∈ ms, coercedTaskIndex m.taskIndex ≠ some (i : ℤ)) →
      acc[i]? = some (defaultTaskResult i) →
      (ms.foldl (processRawMatch n) acc)[i]? = some (defaultTaskResult i)
  | [], _, _, hacc => hacc
  | m :: ms, acc, hms, hacc => by
    rw [List.foldl_cons]
    refine foldl_processRawMatch_unref n i ms _
      (fun x hx => hms x (List.mem_cons_of_mem m hx)) ?_
    have hm := hms m (List.mem_cons_self m ms)
    unfold processRawMatch
    split
    · exact hacc
    next idx heq =>
      split
      next hrange =>
        have hne : idx.toNat ≠ i := by
          intro hcontra
          apply hm
          rw [heq]
          have hidx : idx = (i : ℤ) := by omega
          rw [hidx]
        rw [List.getElem?_set_ne hne]
        exact hacc
      next => exact hacc

/-- C4: every confidence placed into a repaired match — the best match and
every alternative, in both the batched and the single-task parser — lies
in the closed interval `[0, 1]`, for every oracle reply including replies
with missing, non-numeric, negative, or greater-than-1 confidences. -/
theorem oracle_scores_clamped (reply : Option RawReply) (n : Nat)
    (sreply : Option RawSingleReply) :
    (∀ r ∈ parseBatchGeminiResponse reply n,
      (∀ b, r.bestMatch = some b → 0 ≤ b.score ∧ b.score ≤ 1) ∧
      (∀ a ∈ r.alternatives, 0 ≤ a.score ∧ a.score ≤ 1)) ∧
    (∀ b, (parseGeminiResponse sreply).bestMatch = some b →
      0 ≤ b.confidence ∧ b.confidence ≤ 1) ∧
    (∀ l, (parseGeminiResponse sreply).alternatives = some l →
      ∀ a ∈ l, 0 ≤ a.confidence ∧ a.confidence ≤ 1) := by
  refine ⟨?_, ?_, ?_⟩
  · intro r hr
    obtain ⟨hbest, _, halts⟩ := parseBatch_mem_good reply n r hr
    exact ⟨fun b hb => (hbest b hb).2, fun a ha => (halts a ha).2⟩
  · intro b hb
    cases sreply with
    | none => simp [parseGeminiResponse] at hb
    | some p =>
      simp only [parseGeminiResponse, Option.map_eq_some'] at hb
      obtain ⟨bm, _, hbm⟩ := hb
      rw [← hbm]
      exact ⟨clamp01_nonneg _, clamp01_le_one _⟩
  · intro l hl a ha
    cases sreply with
    | none =>
      simp only [parseGeminiResponse, Option.some.injEq] at hl
      rw [← hl] at ha
      simp at ha
    | some p =>
      simp only [parseGeminiResponse, Option.map_eq_some'] at hl
      obtain ⟨alts, _, halts⟩ := hl
      rw [← halts] at ha
      obtain ⟨x, _, hx⟩ := List.mem_map.mp (List.mem_of_mem_take ha)
      rw [← hx]
      exact ⟨clamp01_nonneg _, clamp01_le_one _⟩

/-- C4 witness: the hostile single reply's out-of-range confidence 5/2 is
clamped to 1, which the claim's bounds cover. -/
theorem oracle_scores_clamped_witness :
    (parseGeminiResponse (some singleReplyHostile)).bestMatch =
      some ⟨some "EW-1", 1, none⟩ ∧
    (0 : ℚ) ≤ 1 ∧ (1 : ℚ) ≤ 1 :=
  have h : (parseGeminiResponse (some singleReplyHostile)).bestMatch =
      some ⟨some "EW-1", 1, none⟩ :=
    of_decide_eq_true (by with_unfolding_all rfl)
  ⟨h, (oracle_scores_clamped (some replyHostile) 2
        (some singleReplyHostile)).2.1 ⟨some "EW-1", 1, none⟩ h⟩

/-- C5 counterexample: a reply entry carrying the falsy task index 0 —
outside the expected range `1..n` and so, per the claim, to be ignored —
is instead coerced to index 1 and fills task 1's slot with its best
match. -/
theorem batch_parse_zero_index_counterexample :
    ¬ (1 ≤ (0 : ℤ)) ∧
    (parseBatchGeminiResponse (some replyZeroIdx) 1).map
      (fun r => r.bestMatch.map KeyedMatch.ticket) = [some "EW-9"] :=
  of_decide_eq_true (by with_unfolding_all rfl)

/-- C5 amended: batch response parsing always returns exactly `n` per-task
results; each result carries at most 2 alternatives, all with nonempty
ticket keys; and every task slot hit by no reply entry AFTER INDEX
COERCION keeps best match null with empty alternatives.  The coercion
`(taskIndex || 1) - 1` sends a missing, zero, or otherwise falsy task
index to task 1's slot rather than ignoring it; a truthy non-numeric
index, and any other index outside `1..n` after coercion, is ignored. -/
theorem batch_parse_repair_amended (reply : Option RawReply) (n : Nat) :
    (parseBatchGeminiResponse reply n).length = n ∧
    (∀ r ∈ parseBatchGeminiResponse reply n,
      r.alternatives.length ≤ 2 ∧ ∀ a ∈ r.alternatives, a.ticket ≠ "") ∧
    (∀ i, i < n →
      (∀ m ∈ (reply.bind RawReply.matchesArr).getD [],
        coercedTaskIndex m.taskIndex ≠ some (i : ℤ)) →
      (parseBatchGeminiResponse reply n)[i]? = some (defaultTaskResult i)) := by
  refine ⟨parseBatch_length reply n, ?_, ?_⟩
  · intro r hr
    obtain ⟨_, hlen, halts⟩ := parseBatch_mem_good reply n r hr
    exact ⟨hlen, fun a ha => (halts a ha).1⟩
  · intro i hi hunref
    have hinit : ((List.range n).map defaultTaskResult)[i]? =
        some (defaultTaskResult i) := by
      rw [List.getElem?_map, List.getElem?_range hi]
      rfl
    cases reply with
    | none => exact hinit
    | some r =>
      cases hm : r.matchesArr with
      | none => simpa [parseBatchGeminiResponse, hm] using hinit
      | some ms =>
        simp only [parseBatchGeminiResponse, hm]
        refine foldl_processRawMatch_unref n i ms _ ?_ hinit
        intro m hmm
        exact hunref m (by simpa [hm] using hmm)

/-- C5 amended witness: on the hostile reply with `n = 2`, the parse
output has 2 slots and slot 2 — referenced by no entry after coercion
(the entries target tasks 1 and 9) — keeps its placeholder. -/
theorem batch_parse_repair_amended_witness :
    (parseBatchGeminiResponse (some replyHostile) 2).length = 2 ∧
    (parseBatchGeminiResponse (some replyHostile) 2)[1]? =
      some (defaultTaskResult 1) :=
  ⟨(batch_parse_repair_amended (some replyHostile) 2).1,
   (batch_parse_repair_amended (some replyHostile) 2).2.2 1
     (of_decide_eq_true (by with_unfolding_all rfl))
     (of_decide_eq_true (by with_unfolding_all rfl))⟩

/-! ## Claim C9 — project-identifier bracket overlap -/

/-- C9 counterexample: the identifier `"pay ment"` and the bracketed tag
`[payment]` overlap once internal whitespace is ignored on both sides (the
claim's reading), yet the code rejects the ticket: whitespace is stripped
only from the bracket content, never from the identifier. -/
theorem project_overlap_whitespace_counterexample :
    matchesProjectIdentifier ticketPayment (some "pay ment") = false ∧
    specProjectOverlap ticketPayment "pay ment" = true :=
  of_decide_eq_true (by with_unfolding_all rfl)

/-- C9 amended: a ticket passes the project filter iff some bracketed tag
of its lowercased summary-plus-description either contains the lowercased
identifier verbatim, or is contained in the identifier after removing the
BRACKET content's internal whitespace — the identifier's own internal
whitespace is never ignored. -/
theorem project_filter_amended (t : Ticket) (pid : String) (hpid : pid ≠ "") :
    matchesProjectIdentifier t (some pid) = true ↔
      ∃ bracket ∈ extractBrackets
          (jsLower t.summary ++ " " ++ jsOrStr (t.description.map jsLower) "").data,
        (jsIncludesL ((bracket.map Char.toLower).filter
            (fun ch => ¬ (ch = '[' ∨ ch = ']'))) (jsLower pid).data = true ∨
         jsIncludesL (jsLower pid).data
            (((bracket.map Char.toLower).filter (fun ch => ¬ (ch = '[' ∨ ch = ']'))).filter
              (fun ch => ¬ isJsWs ch)) = true) := by
  simp only [matchesProjectIdentifier, if_neg hpid, List.any_eq_true, Bool.or_eq_true]

/-- C9 witness: the scenario ticket passes the filter for `"mydebit"`,
via its `[mydebit]` bracket containing the identifier. -/
theorem project_filter_amended_witness :
    matchesProjectIdentifier ticketMyDebit (some "mydebit") = true :=
  (project_filter_amended ticketMyDebit "mydebit" (of_decide_eq_true (by with_unfolding_all rfl))).mpr
    ⟨"[mydebit]".data, of_decide_eq_true (by with_unfolding_all rfl),
     Or.inl (of_decide_eq_true (by with_unfolding_all rfl))⟩
